import Mathlib

/-!
Shallow embedding of the `notification-migrator` program (`main.go`, `migration.go`).

The program copies users, notification types and notifications from a source
PostgreSQL database into a destination database.  The embedding models the two
databases as explicit in-memory states and each migration stage as a pure
function on those states, mirroring the control flow of `migration.go`
statement by statement:

* JSON payloads are modelled structurally (`JValue`); a JSON object is an
  association list of fields in a fixed construction order, which is adequate
  because the code only ever reads the top-level object, its `"message"` field,
  and sets that sub-object's `"id"` key.
* The `message` column of a source notification is modelled by `SrcMsg`: either
  text that is not valid JSON (`raw`) or the JSON value it parses to (`json`).
* Go's `map[string]string` is modelled by an association list with
  overwrite-on-insert (`goMapSet`) and zero-value-on-miss (`goMapGet`)
  semantics, exactly as Go map indexing behaves.
* The squirrel statement builder (`github.com/Masterminds/squirrel`) is
  modelled by `InsertBuilder`; its `ToSql` fails on an insert with no values,
  which is squirrel's documented behaviour
  ("insert statements must have at least one set of values or select clause").
* `errors.Wrap msg` renders as `msg ++ ": " ++ cause`, matching
  `github.com/pkg/errors`.
* Destination-assigned identities (the `id` columns of `users` and
  `notification_types`, generated by the database on insert) are modelled by a
  fresh-id counter threaded through the destination state.
* A run can end three ways, captured by `MigResult`: normal success, a
  returned error, or a Go runtime panic (the unchecked type assertion at
  `migration.go:289`).
-/

namespace NotificationMigrator

/-- Structural model of a JSON value.  An object keeps its fields as an
association list; arrays are not needed by any payload the migrator inspects
and a non-object, non-string leaf is represented by its dedicated leaf
constructor. -/
inductive JValue : Type where
  | null
  | bool (b : Bool)
  | num (n : Int)
  | str (s : String)
  | obj (fields : List (String × JValue))

/-- Model of the text stored in a source notification's `message` column:
either text that is not valid JSON, or the JSON value the text parses to. -/
inductive SrcMsg : Type where
  | raw (text : String)
  | json (value : JValue)

/-- Look a key up in a JSON object's field list (first match). -/
def jLookup : List (String × JValue) → String → Option JValue
  | [], _ => none
  | (k', v) :: rest, k => if k' = k then some v else jLookup rest k

/-- Set a key in a JSON object's field list: overwrite the first existing
binding in place, or append the binding when the key is absent.  This is the
assignment `m[k] = v` on a Go `map[string]interface` value, observed through
the fixed field order of the model. -/
def jSet : List (String × JValue) → String → JValue → List (String × JValue)
  | [], k, v => [(k, v)]
  | (k', v') :: rest, k, v =>
      if k' = k then (k, v) :: rest else (k', v') :: jSet rest k v

/-- Go `map[string]string` assignment `m[k] = v`: overwrite or add. -/
def goMapSet : List (String × String) → String → String → List (String × String)
  | [], k, v => [(k, v)]
  | (k', v') :: rest, k, v =>
      if k' = k then (k, v) :: rest else (k', v') :: goMapSet rest k v

/-- Go `map[string]string` indexing `m[k]`: the mapped value, or the zero
value `""` when the key is absent. -/
def goMapGet : List (String × String) → String → String
  | [], _ => ""
  | (k', v) :: rest, k => if k' = k then v else goMapGet rest k

/-- Model of the SQL `lower()` function applied by the source queries
(`lower(type)` at `migration.go:108` and `migration.go:238`): lower-case every
character. -/
def strLower (s : String) : String := String.mk (s.data.map Char.toLower)

/-- Error wrapping of `github.com/pkg/errors`: `errors.Wrap(err, msg)` renders
as `msg: err`. -/
def wrap (msg err : String) : String := msg ++ ": " ++ err

/-- Row of the source `users` table (the columns the migrator reads). -/
structure SrcUser : Type where
  id : Nat
  username : String

/-- Row of the source `notifications` table (the columns the migrator reads).
`date_created` is the creation timestamp, ordered by its numeric value. -/
structure SrcNotification : Type where
  uuid : String
  type : String
  user_id : Nat
  subject : String
  seen : Bool
  deleted : Bool
  date_created : Nat
  message : SrcMsg

/-- The source database: the two tables the migrator queries. -/
structure SourceDB : Type where
  users : List SrcUser
  notifications : List SrcNotification

/-- Row of the destination `users` table. -/
structure DestUserRow : Type where
  id : String
  username : String

/-- Row of the destination `notification_types` table. -/
structure DestTypeRow : Type where
  id : String
  name : String

/-- Row of the destination `notifications` table, with the columns listed at
`migration.go:259-269`.  `incoming_json` holds the source message text
verbatim; `outgoing_json` holds the marshalled rewritten payload. -/
structure DestNotificationRow : Type where
  id : String
  notification_type_id : String
  user_id : String
  subject : String
  seen : Bool
  deleted : Bool
  time_created : Nat
  incoming_json : SrcMsg
  outgoing_json : JValue

/-- The destination database: the three tables the migrator writes, plus the
counter with which the database assigns fresh opaque identities on insert. -/
structure DestDB : Type where
  nextId : Nat
  users : List DestUserRow
  notification_types : List DestTypeRow
  notifications : List DestNotificationRow

/-- Destination-assigned opaque identity (for the generated `id` column). -/
def freshId (n : Nat) : String := "dest-id-" ++ toString n

/-- Result of a migration run: normal return value, returned error, or Go
runtime panic. -/
inductive MigResult (α : Type) : Type where
  | ok (value : α)
  | err (message : String)
  | panicked (message : String)

/-- Insert-statement builder, modelled from `github.com/Masterminds/squirrel`:
a table name, column list, and the accumulated rows of values. -/
structure InsertBuilder (α : Type) : Type where
  into : String
  cols : List String
  vals : List α

/-- A generated insert statement (the output of `ToSql`). -/
structure InsertStmt (α : Type) : Type where
  into : String
  cols : List String
  rows : List α

/-- Builder method `Values`: append one row of values. -/
def InsertBuilder.Values {α : Type} (b : InsertBuilder α) (row : α) : InsertBuilder α :=
  { b with vals := b.vals ++ [row] }

/-- Error text squirrel produces for an insert builder holding no values. -/
def squirrelEmptyInsertError : String :=
  "insert statements must have at least one set of values or select clause"

/-- Builder method `ToSql`.  squirrel rejects an insert builder that holds no
values (and no select clause): this is the zero-source-rows edge case. -/
def InsertBuilder.ToSql {α : Type} (b : InsertBuilder α) : Except String (InsertStmt α) :=
  if b.vals.isEmpty then
    .error squirrelEmptyInsertError
  else
    .ok { into := b.into, cols := b.cols, rows := b.vals }

/-- Execute an insert statement on the destination `users` table: the database
appends one row per value row, assigning each a fresh generated identity. -/
def execInsertUsers (dest : DestDB) (stmt : InsertStmt String) : DestDB :=
  stmt.rows.foldl
    (fun d username =>
      { d with
        nextId := d.nextId + 1,
        users := d.users ++ [{ id := freshId d.nextId, username := username }] })
    dest

/-- Execute an insert statement on the destination `notification_types` table,
assigning each inserted row a fresh generated identity. -/
def execInsertTypes (dest : DestDB) (stmt : InsertStmt String) : DestDB :=
  stmt.rows.foldl
    (fun d name =>
      { d with
        nextId := d.nextId + 1,
        notification_types := d.notification_types ++ [{ id := freshId d.nextId, name := name }] })
    dest

/-- Execute an insert statement on the destination `notifications` table; the
row carries its identity explicitly, so nothing is generated. -/
def execInsertNotifications (dest : DestDB) (stmt : InsertStmt DestNotificationRow) : DestDB :=
  { dest with notifications := dest.notifications ++ stmt.rows }

/-- Model of `validateDestinationUsersTable` (`migration.go:14-29`): error when
the destination `users` table holds any row. -/
def validateDestinationUsersTable (dest : DestDB) : Except String Unit :=
  if dest.users.length > 0 then .error "the destination users table is not empty"
  else .ok ()

/-- Model of `migrateUsers` (`migration.go:32-76`): validate emptiness, read
every source username, build one bulk insert and execute it. -/
def migrateUsers (src : SourceDB) (dest : DestDB) : Except String DestDB :=
  let wrapMsg := "user migration failed"
  match validateDestinationUsersTable dest with
  | .error e => .error (wrap wrapMsg e)
  | .ok _ =>
      let sourceRows := src.users.map (fun u => u.username)
      let builder : InsertBuilder String :=
        sourceRows.foldl (fun b v => b.Values v)
          { into := "users", cols := ["username"], vals := [] }
      match builder.ToSql with
      | .error e => .error (wrap wrapMsg e)
      | .ok stmt => .ok (execInsertUsers dest stmt)

/-- Model of `SELECT DISTINCT`: the distinct values of a list (keeping, for
each value, its last occurrence; `DISTINCT` leaves the order unspecified). -/
def sqlDistinct : List String → List String
  | [] => []
  | x :: xs => if x ∈ sqlDistinct xs then sqlDistinct xs else x :: sqlDistinct xs

/-- Model of `validateDestinationNotificationTypesTable`
(`migration.go:80-95`). -/
def validateDestinationNotificationTypesTable (dest : DestDB) : Except String Unit :=
  if dest.notification_types.length > 0 then
    .error "the destination notification_types table is not empty"
  else .ok ()

/-- Model of `migrateNotificationTypes` (`migration.go:98-142`): validate
emptiness, read `SELECT DISTINCT lower(type) FROM notifications`, build one
bulk insert and execute it. -/
def migrateNotificationTypes (src : SourceDB) (dest : DestDB) : Except String DestDB :=
  let wrapMsg := "notification type migration failed"
  match validateDestinationNotificationTypesTable dest with
  | .error e => .error (wrap wrapMsg e)
  | .ok _ =>
      let sourceRows := sqlDistinct (src.notifications.map (fun n => strLower n.type))
      let builder : InsertBuilder String :=
        sourceRows.foldl (fun b v => b.Values v)
          { into := "notification_types", cols := ["name"], vals := [] }
      match builder.ToSql with
      | .error e => .error (wrap wrapMsg e)
      | .ok stmt => .ok (execInsertTypes dest stmt)

/-- Model of `validateDestinationNotificationsTable` (`migration.go:146-161`);
the message text reproduces the source's spelling. -/
def validateDestinationNotificationsTable (dest : DestDB) : Except String Unit :=
  if dest.notifications.length > 0 then
    .error "the destination notifictions table is not empty"
  else .ok ()

/-- Model of `getNotificationTypeIDMap` (`migration.go:164-186`): fold the
destination `notification_types` rows into a Go map from name to id. -/
def getNotificationTypeIDMap (dest : DestDB) : List (String × String) :=
  dest.notification_types.foldl (fun m row => goMapSet m row.name row.id) []

/-- Model of `getUserIDMap` (`migration.go:189-211`): fold the destination
`users` rows into a Go map from username to id. -/
def getUserIDMap (dest : DestDB) : List (String × String) :=
  dest.users.foldl (fun m row => goMapSet m row.username row.id) []

/-- One row produced by the source notification query (`migration.go:236-248`),
as scanned at `migration.go:273-276`.  `notificationType` already carries
`lower(n.type)` and `username` comes from the joined `users` row. -/
structure ScannedNotification : Type where
  id : String
  notificationType : String
  username : String
  subject : String
  seen : Bool
  deleted : Bool
  timeCreated : Nat
  message : SrcMsg

/-- The inner join `JOIN users u ON n.user_id = u.id` of the source query: a
source notification yields a row exactly when a source user carries its
`user_id` (`u.id` is the primary key of the source `users` table). -/
def joinedNotifications (src : SourceDB) : List ScannedNotification :=
  src.notifications.filterMap (fun n =>
    match src.users.find? (fun u => u.id == n.user_id) with
    | some u =>
        some { id := n.uuid, notificationType := strLower n.type, username := u.username,
               subject := n.subject, seen := n.seen, deleted := n.deleted,
               timeCreated := n.date_created, message := n.message }
    | none => none)

/-- Comparison used by `ORDER BY n.date_created`. -/
def timeLE (a b : ScannedNotification) : Prop := a.timeCreated ≤ b.timeCreated

instance : DecidableRel timeLE := fun a b => Nat.decLe a.timeCreated b.timeCreated

instance : IsTotal ScannedNotification timeLE :=
  ⟨fun a b => Nat.le_total a.timeCreated b.timeCreated⟩

instance : IsTrans ScannedNotification timeLE :=
  ⟨fun _ _ _ hab hbc => Nat.le_trans hab hbc⟩

/-- The full source notification query: the join, ordered by `date_created`
(`ORDER BY` fixes only the non-decreasing timestamp order; the model sorts). -/
def notificationQueryRows (src : SourceDB) : List ScannedNotification :=
  List.insertionSort timeLE (joinedNotifications src)

/-- Model of `json.Unmarshal([]byte(message), &outgoing)` with `outgoing` a Go
`map[string]interface` value: text that is not valid JSON fails; a JSON value
that is neither an object nor `null` fails; an object yields its fields; and
JSON `null` succeeds with no error, setting the Go map to nil.  A nil map
reads like an empty field list, which is all the program observes: it never
writes to the outer map, because the type assertion on the (necessarily
missing) `"message"` field panics first. -/
def unmarshalObject : SrcMsg → Except String (List (String × JValue))
  | .raw _ => .error "invalid character in JSON text"
  | .json (.obj fields) => .ok fields
  | .json .null => .ok []
  | .json _ => .error "json: cannot unmarshal JSON value into Go map value"

/-- The column list of the destination notifications insert
(`migration.go:259-269`). -/
def notificationColumns : List String :=
  ["id", "notification_type_id", "user_id", "subject", "seen", "deleted",
   "time_created", "incoming_json", "outgoing_json"]

/-- Panic message for the unchecked type assertion
`outgoing["message"].(map[string]interface)` at `migration.go:289`, raised when
the `"message"` field is absent or is not a JSON object. -/
def messageAssertionPanic : String :=
  "interface conversion: the message field is not a JSON object"

/-- The body of the per-row loop of `migrateNotifications`
(`migration.go:272-317`), carrying the two identity maps, the remaining scanned
rows, the destination state, and the insert statements executed so far. -/
def migrateNotificationsLoop (typeIdFor userIdFor : List (String × String)) :
    List ScannedNotification → DestDB → List (InsertStmt DestNotificationRow) →
    MigResult (DestDB × List (InsertStmt DestNotificationRow))
  | [], dest, stmts => .ok (dest, stmts)
  | r :: rs, dest, stmts =>
      let wrapMsg := "notification migration failed"
      let notificationTypeID := goMapGet typeIdFor r.notificationType
      let userID := goMapGet userIdFor r.username
      match unmarshalObject r.message with
      | .error e => .err (wrap wrapMsg e)
      | .ok outgoing =>
          match jLookup outgoing "message" with
          | some (.obj msgFields) =>
              let outgoingJSON : JValue :=
                .obj (jSet outgoing "message" (.obj (jSet msgFields "id" (.str r.id))))
              let row : DestNotificationRow :=
                { id := r.id, notification_type_id := notificationTypeID, user_id := userID,
                  subject := r.subject, seen := r.seen, deleted := r.deleted,
                  time_created := r.timeCreated, incoming_json := r.message,
                  outgoing_json := outgoingJSON }
              let builder : InsertBuilder DestNotificationRow :=
                InsertBuilder.Values
                  { into := "notifications", cols := notificationColumns, vals := [] } row
              match builder.ToSql with
              | .error e => .err (wrap wrapMsg e)
              | .ok stmt =>
                  migrateNotificationsLoop typeIdFor userIdFor rs
                    (execInsertNotifications dest stmt) (stmts ++ [stmt])
          | _ => .panicked messageAssertionPanic

/-- Model of `migrateNotifications` (`migration.go:214-320`), instrumented to
also return the sequence of insert statements it executed. -/
def migrateNotificationsT (src : SourceDB) (dest : DestDB) :
    MigResult (DestDB × List (InsertStmt DestNotificationRow)) :=
  let wrapMsg := "notification migration failed"
  match validateDestinationNotificationsTable dest with
  | .error e => .err (wrap wrapMsg e)
  | .ok _ =>
      let typeIdFor := getNotificationTypeIDMap dest
      let userIdFor := getUserIDMap dest
      migrateNotificationsLoop typeIdFor userIdFor (notificationQueryRows src) dest []

/-- Model of `runMigration` (`migration.go:323-348`): the three stages in
strict sequence, each failure wrapped and short-circuiting the rest. -/
def runMigration (src : SourceDB) (dest : DestDB) : MigResult DestDB :=
  let wrapMsg := "database migration failed"
  match migrateUsers src dest with
  | .error e => .err (wrap wrapMsg e)
  | .ok dest1 =>
      match migrateNotificationTypes src dest1 with
      | .error e => .err (wrap wrapMsg e)
      | .ok dest2 =>
          match migrateNotificationsT src dest2 with
          | .err e => .err (wrap wrapMsg e)
          | .panicked m => .panicked m
          | .ok (dest3, _) => .ok dest3

/-! ## Derived characterizations and specification predicates -/

/-- The destination row the loop body produces for one scanned source row,
`none` when the body would fail or panic on that row.  This is the functional
characterization of one iteration of `migrateNotificationsLoop`. -/
def scanResultRow (typeIdFor userIdFor : List (String × String))
    (r : ScannedNotification) : Option DestNotificationRow :=
  match unmarshalObject r.message with
  | .error _ => none
  | .ok outgoing =>
      match jLookup outgoing "message" with
      | some (.obj msgFields) =>
          some { id := r.id,
                 notification_type_id := goMapGet typeIdFor r.notificationType,
                 user_id := goMapGet userIdFor r.username,
                 subject := r.subject, seen := r.seen, deleted := r.deleted,
                 time_created := r.timeCreated, incoming_json := r.message,
                 outgoing_json :=
                   .obj (jSet outgoing "message" (.obj (jSet msgFields "id" (.str r.id)))) }
      | _ => none

/-- The destination `users` rows created for a list of inserted usernames,
starting from a given fresh-id counter. -/
def assignUserRows (nextId : Nat) : List String → List DestUserRow
  | [] => []
  | n :: rest => { id := freshId nextId, username := n } :: assignUserRows (nextId + 1) rest

/-- The destination `notification_types` rows created for a list of inserted
type names, starting from a given fresh-id counter. -/
def assignTypeRows (nextId : Nat) : List String → List DestTypeRow
  | [] => []
  | n :: rest => { id := freshId nextId, name := n } :: assignTypeRows (nextId + 1) rest

/-- A source message has the payload shape the rewrite step expects: it is a
JSON object whose `"message"` field is itself a JSON object. -/
def HasExpectedShape (m : SrcMsg) : Prop :=
  ∃ fields msgFields,
    m = .json (.obj fields) ∧ jLookup fields "message" = some (.obj msgFields)

/-- The spec's statement of the payload rewrite: the outgoing payload equals
the incoming payload plus exactly one added identity field at the `"message"`
sub-object's `"id"` key (so the key is newly added, every existing field is
kept with its value, and nothing else changes). -/
def OutgoingIsIncomingPlusId (incoming : SrcMsg) (uuid : String) (outgoing : JValue) : Prop :=
  ∃ fields msgFields,
    incoming = .json (.obj fields) ∧
    jLookup fields "message" = some (.obj msgFields) ∧
    jLookup msgFields "id" = none ∧
    outgoing = .obj (jSet fields "message" (.obj (msgFields ++ [("id", .str uuid)])))

/-- Whether a parsed payload object carries a `"message"` field that is itself
an object (the shape the unchecked type assertion at `migration.go:289`
requires). -/
def messageFieldIsObject (fields : List (String × JValue)) : Bool :=
  match jLookup fields "message" with
  | some (.obj _) => true
  | _ => false

/-- Observation helper: the foreign-key pair of every destination notification
row of a successful notification-stage result. -/
def resultFKs (res : MigResult (DestDB × List (InsertStmt DestNotificationRow))) :
    Option (List (String × String)) :=
  match res with
  | .ok (d, _) => some (d.notifications.map (fun r => (r.notification_type_id, r.user_id)))
  | _ => none

/-- Observation helper: the first destination notification row of a successful
run. -/
def firstNotificationRow (res : MigResult DestDB) : Option DestNotificationRow :=
  match res with
  | .ok d => d.notifications.head?
  | _ => none

/-! ## Concrete example databases used as witnesses and counterexamples -/

/-- The empty destination database. -/
def dest0 : DestDB :=
  { nextId := 0, users := [], notification_types := [], notifications := [] }

/-- An empty source database. -/
def emptySrc : SourceDB := { users := [], notifications := [] }

/-- The spec's worked example: user `alice`, one `Info` notification with
payload `(message : (text : hi))` and source identity `abc-123`. -/
def exSrc : SourceDB :=
  { users := [{ id := 1, username := "alice" }],
    notifications :=
      [{ uuid := "abc-123", type := "Info", user_id := 1, subject := "subj",
         seen := false, deleted := false, date_created := 100,
         message := .json (.obj [("message", .obj [("text", .str "hi")])]) }] }

/-- Destination state after the user stage on `exSrc`. -/
def exDest1 : DestDB :=
  { nextId := 1, users := [{ id := "dest-id-0", username := "alice" }],
    notification_types := [], notifications := [] }

/-- Destination state after the notification-type stage on `exSrc`. -/
def exDest2 : DestDB :=
  { nextId := 2, users := [{ id := "dest-id-0", username := "alice" }],
    notification_types := [{ id := "dest-id-1", name := "info" }], notifications := [] }

/-- The notification row a successful run on `exSrc` inserts. -/
def exRow : DestNotificationRow :=
  { id := "abc-123", notification_type_id := "dest-id-1", user_id := "dest-id-0",
    subject := "subj", seen := false, deleted := false, time_created := 100,
    incoming_json := .json (.obj [("message", .obj [("text", .str "hi")])]),
    outgoing_json := .obj [("message", .obj [("text", .str "hi"), ("id", .str "abc-123")])] }

/-- Final destination state of a successful run on `exSrc`. -/
def exDest : DestDB :=
  { nextId := 2, users := [{ id := "dest-id-0", username := "alice" }],
    notification_types := [{ id := "dest-id-1", name := "info" }],
    notifications := [exRow] }

/-- Source whose single notification payload already carries a `"message"`
sub-object `"id"` key (value `old`). -/
def c1Src : SourceDB :=
  { users := [{ id := 1, username := "alice" }],
    notifications :=
      [{ uuid := "abc-123", type := "Info", user_id := 1, subject := "subj",
         seen := false, deleted := false, date_created := 100,
         message := .json (.obj [("message", .obj [("id", .str "old"), ("text", .str "hi")])]) }] }

/-- The notification row the migration inserts for `c1Src`: the pre-existing
`"id"` value `old` has been overwritten, not supplemented. -/
def c1Row : DestNotificationRow :=
  { id := "abc-123", notification_type_id := "dest-id-1", user_id := "dest-id-0",
    subject := "subj", seen := false, deleted := false, time_created := 100,
    incoming_json := .json (.obj [("message", .obj [("id", .str "old"), ("text", .str "hi")])]),
    outgoing_json := .obj [("message", .obj [("id", .str "abc-123"), ("text", .str "hi")])] }

/-- Source whose notification payload is a JSON object without a `"message"`
sub-object. -/
def c4Src : SourceDB :=
  { users := [{ id := 1, username := "alice" }],
    notifications :=
      [{ uuid := "n-1", type := "Info", user_id := 1, subject := "s",
         seen := false, deleted := false, date_created := 5,
         message := .json (.obj [("text", .str "hi")]) }] }

/-- Source whose notification payload is not valid JSON at all. -/
def c4RawSrc : SourceDB :=
  { users := [{ id := 1, username := "alice" }],
    notifications :=
      [{ uuid := "n-1", type := "Info", user_id := 1, subject := "s",
         seen := false, deleted := false, date_created := 5,
         message := .raw "not json" }] }

/-- Source whose notification payload is the JSON value `null`: Go unmarshals
it into a nil map with no error, and the type assertion then panics. -/
def c4NullSrc : SourceDB :=
  { users := [{ id := 1, username := "alice" }],
    notifications :=
      [{ uuid := "n-1", type := "Info", user_id := 1, subject := "s",
         seen := false, deleted := false, date_created := 5,
         message := .json .null }] }

/-- A destination that is empty except for one pre-existing notification-type
row. -/
def c5Dest : DestDB :=
  { nextId := 50, users := [],
    notification_types := [{ id := "t-old", name := "misc" }], notifications := [] }

/-- Destination state after the user stage ran against `c5Dest`: a write was
issued although a later table was non-empty from the start. -/
def c5Dest1 : DestDB :=
  { nextId := 51, users := [{ id := "dest-id-50", username := "alice" }],
    notification_types := [{ id := "t-old", name := "misc" }], notifications := [] }

/-- Source with one migratable notification (user `alice`) and one orphan
notification whose `user_id` (`99`) matches no source user. -/
def c10Src : SourceDB :=
  { users := [{ id := 1, username := "alice" }],
    notifications :=
      [{ uuid := "n-1", type := "Info", user_id := 1, subject := "s",
         seen := false, deleted := false, date_created := 7,
         message := .json (.obj [("message", .obj [("text", .str "hi")])]) },
       { uuid := "n-orphan", type := "Warn", user_id := 99, subject := "s2",
         seen := false, deleted := false, date_created := 3,
         message := .json (.obj [("message", .obj [("text", .str "yo")])]) }] }

/-- One scanned row with an unresolvable type and username and a well-shaped
payload, used to exercise the unresolved-lookup behaviour. -/
def c3Scanned : ScannedNotification :=
  { id := "abc-123", notificationType := "info", username := "alice",
    subject := "subj", seen := false, deleted := false, timeCreated := 100,
    message := .json (.obj [("message", .obj [("text", .str "hi")])]) }

/-- A scanned row whose message text is not valid JSON. -/
def c4RawScanned : ScannedNotification :=
  { id := "n-1", notificationType := "info", username := "alice",
    subject := "s", seen := false, deleted := false, timeCreated := 5,
    message := .raw "not json" }

/-- A scanned row whose message parses to an object without a `"message"`
sub-object. -/
def c4NoMsgScanned : ScannedNotification :=
  { id := "n-1", notificationType := "info", username := "alice",
    subject := "s", seen := false, deleted := false, timeCreated := 5,
    message := .json (.obj [("text", .str "hi")]) }

/-- A scanned row whose message is the JSON value `null`. -/
def c4NullScanned : ScannedNotification :=
  { id := "n-1", notificationType := "info", username := "alice",
    subject := "s", seen := false, deleted := false, timeCreated := 5,
    message := .json .null }

/-- Source for exercising the ordering: two joined notifications arriving in
reverse creation order. -/
def c6Src : SourceDB :=
  { users := [{ id := 1, username := "alice" }],
    notifications :=
      [{ uuid := "n-b", type := "Info", user_id := 1, subject := "sb",
         seen := false, deleted := false, date_created := 5,
         message := .json (.obj [("message", .obj [("text", .str "b")])]) },
       { uuid := "n-a", type := "Info", user_id := 1, subject := "sa",
         seen := false, deleted := false, date_created := 2,
         message := .json (.obj [("message", .obj [("text", .str "a")])]) }] }

/-- The destination notification row produced for one `c6Src` source row. -/
def c6Row (uuid subj txt : String) (t : Nat) : DestNotificationRow :=
  { id := uuid, notification_type_id := "", user_id := "",
    subject := subj, seen := false, deleted := false, time_created := t,
    incoming_json := .json (.obj [("message", .obj [("text", .str txt)])]),
    outgoing_json := .obj [("message", .obj [("text", .str txt), ("id", .str uuid)])] }

/-- Result state of the notification stage on `c6Src` against `dest0`. -/
def c6Dest : DestDB :=
  { nextId := 0, users := [], notification_types := [],
    notifications := [c6Row "n-a" "sa" "a" 2, c6Row "n-b" "sb" "b" 5] }

/-- Statement trace of the notification stage on `c6Src`: one single-row
statement per notification, earliest creation time first. -/
def c6Trace : List (InsertStmt DestNotificationRow) :=
  [{ into := "notifications", cols := notificationColumns, rows := [c6Row "n-a" "sa" "a" 2] },
   { into := "notifications", cols := notificationColumns, rows := [c6Row "n-b" "sb" "b" 5] }]

/-- Source with three notifications across two distinct lower-cased types. -/
def c7Src : SourceDB :=
  { users := [],
    notifications :=
      [{ uuid := "t1", type := "Info", user_id := 1, subject := "x",
         seen := false, deleted := false, date_created := 1, message := .raw "x" },
       { uuid := "t2", type := "INFO", user_id := 2, subject := "x",
         seen := false, deleted := false, date_created := 2, message := .raw "x" },
       { uuid := "t3", type := "warn", user_id := 3, subject := "x",
         seen := false, deleted := false, date_created := 3, message := .raw "x" }] }

/-- Destination state after the notification-type stage on `c7Src`. -/
def c7Dest : DestDB :=
  { nextId := 2, users := [],
    notification_types := [{ id := "dest-id-0", name := "info" },
                           { id := "dest-id-1", name := "warn" }],
    notifications := [] }

/-- Final destination state of a successful run on `c10Src`: the orphan
notification `n-orphan` was dropped, while its type string `warn` still became
a notification-type row (the type query does not join on users). -/
def c10Dest : DestDB :=
  { nextId := 3,
    users := [{ id := "dest-id-0", username := "alice" }],
    notification_types := [{ id := "dest-id-1", name := "info" },
                           { id := "dest-id-2", name := "warn" }],
    notifications :=
      [{ id := "n-1", notification_type_id := "dest-id-1", user_id := "dest-id-0",
         subject := "s", seen := false, deleted := false, time_created := 7,
         incoming_json := .json (.obj [("message", .obj [("text", .str "hi")])]),
         outgoing_json := .obj [("message", .obj [("text", .str "hi"), ("id", .str "n-1")])] }] }

/-- Statement trace of the successful notification stage on `exSrc`. -/
def exTrace : List (InsertStmt DestNotificationRow) :=
  [{ into := "notifications", cols := notificationColumns, rows := [exRow] }]

/-! ## Helper lemmas about the model's primitive operations -/

theorem jSet_of_lookup_none {m : List (String × JValue)} {k : String} (v : JValue)
    (h : jLookup m k = none) : jSet m k v = m ++ [(k, v)] := by
  induction m with
  | nil => rfl
  | cons hd tl ih =>
      obtain ⟨k', v'⟩ := hd
      by_cases hk : k' = k
      · simp [jLookup, hk] at h
      · simp [jLookup, hk] at h
        simp [jSet, hk, ih h]

theorem goMapGet_goMapSet (m : List (String × String)) (k v k' : String) :
    goMapGet (goMapSet m k v) k' = if k = k' then v else goMapGet m k' := by
  induction m with
  | nil => simp [goMapSet, goMapGet]
  | cons hd tl ih =>
      obtain ⟨k₀, v₀⟩ := hd
      by_cases hk : k₀ = k
      · subst hk
        by_cases hk' : k₀ = k'
        · simp [goMapSet, goMapGet, hk']
        · simp [goMapSet, goMapGet, hk']
      · by_cases hk' : k₀ = k'
        · subst hk'
          simp [goMapSet, goMapGet, hk]
          rw [if_neg (fun hkk => hk hkk.symm)]
        · simp [goMapSet, goMapGet, hk, hk', ih]

/-- Looking a present key up in a Go map built by folding rows: the result is
the identity of one of the rows carrying that key. -/
theorem goMapGet_foldl_of_mem {α : Type} (name ident : α → String) (rows : List α)
    (k : String) (h : k ∈ rows.map name) :
    ∃ row, row ∈ rows ∧ name row = k ∧
      goMapGet (rows.foldl (fun m row => goMapSet m (name row) (ident row)) []) k =
        ident row := by
  induction rows using List.reverseRecOn with
  | nil => simp at h
  | append_singleton l r ih =>
      rw [List.foldl_append]
      simp only [List.foldl_cons, List.foldl_nil]
      rw [goMapGet_goMapSet]
      by_cases hr : name r = k
      · exact ⟨r, by simp, hr, by simp [hr]⟩
      · have hl : k ∈ l.map name := by
          simp only [List.map_append, List.mem_append] at h
          rcases h with h | h
          · exact h
          · simp at h
            exact absurd h.symm hr
        obtain ⟨row, hmem, hname, hget⟩ := ih hl
        exact ⟨row, by simp [hmem], hname, by simp [hr, hget]⟩

theorem mem_sqlDistinct {a : String} {l : List String} :
    a ∈ sqlDistinct l ↔ a ∈ l := by
  induction l with
  | nil => simp [sqlDistinct]
  | cons x xs ih =>
      by_cases hx : x ∈ sqlDistinct xs
      · simp only [sqlDistinct, if_pos hx]
        rw [ih]
        constructor
        · exact fun h => List.mem_cons_of_mem x h
        · intro h
          rcases List.mem_cons.mp h with h | h
          · subst h; exact ih.mp hx
          · exact h
      · simp only [sqlDistinct, if_neg hx]
        rw [List.mem_cons, List.mem_cons, ih]

theorem nodup_sqlDistinct (l : List String) : (sqlDistinct l).Nodup := by
  induction l with
  | nil => simp [sqlDistinct]
  | cons x xs ih =>
      by_cases hx : x ∈ sqlDistinct xs
      · simpa [sqlDistinct, if_pos hx] using ih
      · simp only [sqlDistinct, if_neg hx]
        exact List.Nodup.cons hx ih

theorem toFinset_sqlDistinct (l : List String) :
    (sqlDistinct l).toFinset = l.toFinset := by
  apply Finset.ext
  intro a
  simp [List.mem_toFinset, mem_sqlDistinct]

theorem length_sqlDistinct (l : List String) :
    (sqlDistinct l).length = l.toFinset.card := by
  rw [← toFinset_sqlDistinct, List.toFinset_card_of_nodup (nodup_sqlDistinct l)]

theorem length_filterMap_eq_length_filter {α β : Type} (f : α → Option β) (l : List α) :
    (l.filterMap f).length = (l.filter (fun a => (f a).isSome)).length := by
  induction l with
  | nil => rfl
  | cons x xs ih =>
      cases hx : f x with
      | none => simp [List.filterMap_cons, List.filter_cons, hx, ih]
      | some b => simp [List.filterMap_cons, List.filter_cons, hx, ih]

theorem length_filterMap_of_all_isSome {α β : Type} {f : α → Option β} {l : List α}
    (h : ∀ a ∈ l, (f a).isSome) : (l.filterMap f).length = l.length := by
  induction l with
  | nil => rfl
  | cons x xs ih =>
      cases hx : f x with
      | none =>
          have := h x (List.mem_cons_self x xs)
          rw [hx] at this
          simp at this
      | some b =>
          simp only [List.filterMap_cons, hx, List.length_cons]
          rw [ih (fun a ha => h a (List.mem_cons_of_mem x ha))]

/-! ## Characterizations of the stage functions -/

theorem foldl_Values {α : Type} (rows : List α) (base : InsertBuilder α) :
    rows.foldl (fun b v => b.Values v) base =
      { into := base.into, cols := base.cols, vals := base.vals ++ rows } := by
  induction rows generalizing base with
  | nil => simp
  | cons x xs ih =>
      rw [List.foldl_cons, ih]
      simp [InsertBuilder.Values]

theorem foldl_insertUser (rows : List String) (dest : DestDB) :
    List.foldl
      (fun d username =>
        { d with
          nextId := d.nextId + 1,
          users := d.users ++ [{ id := freshId d.nextId, username := username }] })
      dest rows =
      { nextId := dest.nextId + rows.length,
        users := dest.users ++ assignUserRows dest.nextId rows,
        notification_types := dest.notification_types,
        notifications := dest.notifications } := by
  induction rows generalizing dest with
  | nil => simp [assignUserRows]
  | cons r rs ih =>
      rw [List.foldl_cons, ih]
      simp [assignUserRows]
      omega

theorem execInsertUsers_eq (dest : DestDB) (stmt : InsertStmt String) :
    execInsertUsers dest stmt =
      { nextId := dest.nextId + stmt.rows.length,
        users := dest.users ++ assignUserRows dest.nextId stmt.rows,
        notification_types := dest.notification_types,
        notifications := dest.notifications } :=
  foldl_insertUser stmt.rows dest

theorem foldl_insertType (rows : List String) (dest : DestDB) :
    List.foldl
      (fun d name =>
        { d with
          nextId := d.nextId + 1,
          notification_types := d.notification_types ++ [{ id := freshId d.nextId, name := name }] })
      dest rows =
      { nextId := dest.nextId + rows.length,
        users := dest.users,
        notification_types := dest.notification_types ++ assignTypeRows dest.nextId rows,
        notifications := dest.notifications } := by
  induction rows generalizing dest with
  | nil => simp [assignTypeRows]
  | cons r rs ih =>
      rw [List.foldl_cons, ih]
      simp [assignTypeRows]
      omega

theorem execInsertTypes_eq (dest : DestDB) (stmt : InsertStmt String) :
    execInsertTypes dest stmt =
      { nextId := dest.nextId + stmt.rows.length,
        users := dest.users,
        notification_types := dest.notification_types ++ assignTypeRows dest.nextId stmt.rows,
        notifications := dest.notifications } :=
  foldl_insertType stmt.rows dest

theorem assignUserRows_map_username (n : Nat) (names : List String) :
    (assignUserRows n names).map (fun u => u.username) = names := by
  induction names generalizing n with
  | nil => rfl
  | cons x xs ih => simp [assignUserRows, ih]

theorem assignTypeRows_map_name (n : Nat) (names : List String) :
    (assignTypeRows n names).map (fun t => t.name) = names := by
  induction names generalizing n with
  | nil => rfl
  | cons x xs ih => simp [assignTypeRows, ih]

theorem sqlDistinct_eq_nil_iff {l : List String} : sqlDistinct l = [] ↔ l = [] := by
  cases l with
  | nil => simp [sqlDistinct]
  | cons x xs =>
      simp only [sqlDistinct]
      constructor
      · intro h
        split at h
        · next hx => rw [h] at hx; simp at hx
        · simp at h
      · intro h; cases h

theorem migrateUsers_ok_iff (src : SourceDB) (dest : DestDB) (d : DestDB) :
    migrateUsers src dest = .ok d ↔
      dest.users = [] ∧ src.users ≠ [] ∧
      d = execInsertUsers dest
            { into := "users", cols := ["username"],
              rows := src.users.map (fun u => u.username) } := by
  by_cases hu : dest.users.length > 0
  · have hne : dest.users ≠ [] := by
      intro h; rw [h] at hu; simp at hu
    simp [migrateUsers, validateDestinationUsersTable, hu, hne]
  · have hnil : dest.users = [] := List.length_eq_zero.mp (Nat.eq_zero_of_not_pos hu)
    by_cases hsrc : src.users = []
    · simp [migrateUsers, validateDestinationUsersTable, hu, hsrc, foldl_Values,
            InsertBuilder.ToSql]
    · simp only [migrateUsers, validateDestinationUsersTable, hu, if_false, foldl_Values,
            InsertBuilder.ToSql]
      simp [List.isEmpty_iff, hsrc, hnil]
      exact eq_comm

theorem migrateUsers_error_shape {src : SourceDB} {dest : DestDB} {e : String}
    (h : migrateUsers src dest = .error e) :
    ∃ c, e = wrap "user migration failed" c := by
  simp only [migrateUsers] at h
  split at h
  · exact ⟨_, (Except.error.inj h).symm⟩
  · split at h
    · exact ⟨_, (Except.error.inj h).symm⟩
    · cases h

theorem migrateNotificationTypes_ok_iff (src : SourceDB) (dest : DestDB) (d : DestDB) :
    migrateNotificationTypes src dest = .ok d ↔
      dest.notification_types = [] ∧ src.notifications ≠ [] ∧
      d = execInsertTypes dest
            { into := "notification_types", cols := ["name"],
              rows := sqlDistinct (src.notifications.map (fun n => strLower n.type)) } := by
  by_cases ht : dest.notification_types.length > 0
  · have hne : dest.notification_types ≠ [] := by
      intro h; rw [h] at ht; simp at ht
    simp [migrateNotificationTypes, validateDestinationNotificationTypesTable, ht, hne]
  · have hnil : dest.notification_types = [] :=
      List.length_eq_zero.mp (Nat.eq_zero_of_not_pos ht)
    by_cases hsrc : src.notifications = []
    · simp [migrateNotificationTypes, validateDestinationNotificationTypesTable, ht, hsrc,
            foldl_Values, InsertBuilder.ToSql, sqlDistinct]
    · have hdist : sqlDistinct (src.notifications.map (fun n => strLower n.type)) ≠ [] := by
        rw [Ne, sqlDistinct_eq_nil_iff, List.map_eq_nil_iff]
        exact hsrc
      simp only [migrateNotificationTypes, validateDestinationNotificationTypesTable, ht,
            if_false, foldl_Values, InsertBuilder.ToSql]
      simp [List.isEmpty_iff, hdist, hsrc, hnil]
      exact eq_comm

theorem migrateNotificationTypes_error_shape {src : SourceDB} {dest : DestDB} {e : String}
    (h : migrateNotificationTypes src dest = .error e) :
    ∃ c, e = wrap "notification type migration failed" c := by
  simp only [migrateNotificationTypes] at h
  split at h
  · exact ⟨_, (Except.error.inj h).symm⟩
  · split at h
    · exact ⟨_, (Except.error.inj h).symm⟩
    · cases h

theorem scanResultRow_eq_some {tm um : List (String × String)} {r : ScannedNotification}
    {fields msgFields : List (String × JValue)}
    (h1 : unmarshalObject r.message = .ok fields)
    (h2 : jLookup fields "message" = some (.obj msgFields)) :
    scanResultRow tm um r =
      some { id := r.id,
             notification_type_id := goMapGet tm r.notificationType,
             user_id := goMapGet um r.username,
             subject := r.subject, seen := r.seen, deleted := r.deleted,
             time_created := r.timeCreated, incoming_json := r.message,
             outgoing_json :=
               .obj (jSet fields "message" (.obj (jSet msgFields "id" (.str r.id)))) } := by
  simp [scanResultRow, h1, h2]

/-- Invariant of the per-row insertion loop: a successful pass processes every
row, touches only the `notifications` table, appends exactly the rows
`scanResultRow` describes, and executes one single-row statement per row. -/
theorem migrateNotificationsLoop_ok (tm um : List (String × String)) :
    ∀ (rows : List ScannedNotification) (dest : DestDB)
      (stmts : List (InsertStmt DestNotificationRow)) (d' : DestDB)
      (stmts' : List (InsertStmt DestNotificationRow)),
      migrateNotificationsLoop tm um rows dest stmts = .ok (d', stmts') →
        (∀ r ∈ rows, (scanResultRow tm um r).isSome) ∧
        d'.users = dest.users ∧
        d'.notification_types = dest.notification_types ∧
        d'.nextId = dest.nextId ∧
        d'.notifications = dest.notifications ++ rows.filterMap (scanResultRow tm um) ∧
        stmts' = stmts ++ (rows.filterMap (scanResultRow tm um)).map
          (fun row => { into := "notifications", cols := notificationColumns, rows := [row] }) := by
  intro rows
  induction rows with
  | nil =>
      intro dest stmts d' stmts' h
      simp only [migrateNotificationsLoop] at h
      cases h
      simp
  | cons r rs ih =>
      intro dest stmts d' stmts' h
      simp only [migrateNotificationsLoop] at h
      cases h1 : unmarshalObject r.message with
      | error e => simp only [h1] at h; cases h
      | ok fields =>
          simp only [h1] at h
          cases h2 : jLookup fields "message" with
          | none => simp only [h2] at h; cases h
          | some v =>
              cases v with
              | null => simp only [h2] at h; cases h
              | bool b => simp only [h2] at h; cases h
              | num n => simp only [h2] at h; cases h
              | str s => simp only [h2] at h; cases h
              | obj msgFields =>
                  simp only [h2, InsertBuilder.Values, InsertBuilder.ToSql,
                    List.nil_append, List.isEmpty_cons, Bool.false_eq_true, if_false,
                    execInsertNotifications] at h
                  obtain ⟨hall, hu, ht, hn, hnotif, hstmts⟩ :=
                    ih _ _ _ _ h
                  have hrow : scanResultRow tm um r = _ := scanResultRow_eq_some h1 h2
                  refine ⟨?_, by simpa using hu, by simpa using ht, by simpa using hn, ?_, ?_⟩
                  · intro a ha
                    rcases List.mem_cons.mp ha with rfl | ha
                    · rw [hrow]; rfl
                    · exact hall a ha
                  · rw [List.filterMap_cons_some hrow, hnotif]
                    simp
                  · rw [List.filterMap_cons_some hrow, hstmts]
                    simp

theorem migrateNotificationsLoop_err_shape (tm um : List (String × String)) :
    ∀ (rows : List ScannedNotification) (dest : DestDB)
      (stmts : List (InsertStmt DestNotificationRow)) (e : String),
      migrateNotificationsLoop tm um rows dest stmts = .err e →
        ∃ c, e = wrap "notification migration failed" c := by
  intro rows
  induction rows with
  | nil => intro dest stmts e h; cases h
  | cons r rs ih =>
      intro dest stmts e h
      simp only [migrateNotificationsLoop] at h
      cases h1 : unmarshalObject r.message with
      | error e' =>
          simp only [h1] at h
          exact ⟨e', (MigResult.err.inj h).symm⟩
      | ok fields =>
          simp only [h1] at h
          cases h2 : jLookup fields "message" with
          | none => simp only [h2] at h; cases h
          | some v =>
              cases v with
              | null => simp only [h2] at h; cases h
              | bool b => simp only [h2] at h; cases h
              | num n => simp only [h2] at h; cases h
              | str s => simp only [h2] at h; cases h
              | obj msgFields =>
                  simp only [h2, InsertBuilder.Values, InsertBuilder.ToSql,
                    List.nil_append, List.isEmpty_cons, Bool.false_eq_true, if_false,
                    execInsertNotifications] at h
                  exact ih _ _ _ h

/-- A successful notification stage presupposes an empty destination
notifications table and is the successful run of the row loop with the two
identity maps read from the destination. -/
theorem migrateNotificationsT_ok {src : SourceDB} {dest : DestDB} {d : DestDB}
    {stmts : List (InsertStmt DestNotificationRow)}
    (h : migrateNotificationsT src dest = .ok (d, stmts)) :
    dest.notifications = [] ∧
    migrateNotificationsLoop (getNotificationTypeIDMap dest) (getUserIDMap dest)
      (notificationQueryRows src) dest [] = .ok (d, stmts) := by
  simp only [migrateNotificationsT, validateDestinationNotificationsTable] at h
  by_cases hn : dest.notifications.length > 0
  · simp [hn] at h
  · have hnil : dest.notifications = [] :=
      List.length_eq_zero.mp (Nat.eq_zero_of_not_pos hn)
    simp only [hn, if_false] at h
    exact ⟨hnil, h⟩

theorem migrateNotificationsT_err_shape {src : SourceDB} {dest : DestDB} {e : String}
    (h : migrateNotificationsT src dest = .err e) :
    ∃ c, e = wrap "notification migration failed" c := by
  simp only [migrateNotificationsT, validateDestinationNotificationsTable] at h
  by_cases hn : dest.notifications.length > 0
  · simp only [hn, if_true] at h
    exact ⟨_, (MigResult.err.inj h).symm⟩
  · simp only [hn, if_false] at h
    exact migrateNotificationsLoop_err_shape _ _ _ _ _ _ h

theorem goMapGet_eq_empty_of_absent {m : List (String × String)} {k : String}
    (h : ∀ p ∈ m, p.1 ≠ k) : goMapGet m k = "" := by
  induction m with
  | nil => rfl
  | cons hd tl ih =>
      obtain ⟨k', v⟩ := hd
      have hne : k' ≠ k := h (k', v) (List.mem_cons_self _ _)
      simp only [goMapGet, if_neg hne]
      exact ih (fun p hp => h p (List.mem_cons_of_mem _ hp))

/-! ## Claim C2: zero source rows -/

/-- C2 counterexample: with zero source rows, the user stage and the
notification-type stage do NOT succeed as no-ops — squirrel's statement
builder rejects the empty insert and the stage reports that error, contrary to
the claim. -/
theorem c2_counterexample :
    migrateUsers emptySrc dest0 =
      .error "user migration failed: insert statements must have at least one set of values or select clause" ∧
    migrateNotificationTypes emptySrc dest0 =
      .error "notification type migration failed: insert statements must have at least one set of values or select clause" :=
  ⟨rfl, rfl⟩

/-- C2 (amended): with zero source rows the user and notification-type stages
fail with the empty-statement-builder error; only the notification stage
treats zero rows as a successful no-op inserting nothing. -/
theorem c2_zero_source_rows (src : SourceDB) (dest : DestDB) :
    (dest.users = [] → src.users = [] →
      migrateUsers src dest = .error (wrap "user migration failed" squirrelEmptyInsertError)) ∧
    (dest.notification_types = [] → src.notifications = [] →
      migrateNotificationTypes src dest =
        .error (wrap "notification type migration failed" squirrelEmptyInsertError)) ∧
    (dest.notifications = [] → src.notifications = [] →
      migrateNotificationsT src dest = .ok (dest, [])) := by
  refine ⟨?_, ?_, ?_⟩
  · intro hd hs
    simp [migrateUsers, validateDestinationUsersTable, hd, hs, foldl_Values,
          InsertBuilder.ToSql]
  · intro hd hs
    simp [migrateNotificationTypes, validateDestinationNotificationTypesTable, hd, hs,
          foldl_Values, InsertBuilder.ToSql, sqlDistinct]
  · intro hd hs
    simp [migrateNotificationsT, validateDestinationNotificationsTable, hd,
          notificationQueryRows, joinedNotifications, hs, List.insertionSort,
          migrateNotificationsLoop]

theorem c2_zero_source_rows_witness :
    migrateUsers emptySrc dest0 = .error (wrap "user migration failed" squirrelEmptyInsertError) ∧
    migrateNotificationTypes emptySrc dest0 =
      .error (wrap "notification type migration failed" squirrelEmptyInsertError) ∧
    migrateNotificationsT emptySrc dest0 = .ok (dest0, []) :=
  ⟨(c2_zero_source_rows emptySrc dest0).1 rfl rfl,
   (c2_zero_source_rows emptySrc dest0).2.1 rfl rfl,
   (c2_zero_source_rows emptySrc dest0).2.2 rfl rfl⟩

/-! ## Claim C5: destination emptiness precondition -/

/-- C5 counterexample: with a non-empty destination `notification_types` table
at the start, the run does fail and names the offending table — but only after
the user stage already issued its insert (one user row was written), contrary
to "fails before any write is issued to the destination". -/
theorem c5_counterexample :
    migrateUsers exSrc c5Dest = .ok c5Dest1 ∧
    c5Dest1.users.length = 1 ∧
    runMigration exSrc c5Dest =
      .err "database migration failed: notification type migration failed: the destination notification_types table is not empty" :=
  ⟨rfl, rfl, rfl⟩

/-- C5 (amended): each destination table's emptiness is checked immediately
before that table's own stage, and a non-empty table makes that stage fail
with an error naming the table, before any write to that table; a non-empty
`users` table therefore fails the whole run before any write at all, but a
non-empty later table does not prevent the earlier stages' writes. -/
theorem c5_per_stage_emptiness_check (src : SourceDB) (dest : DestDB) :
    (dest.users ≠ [] →
      migrateUsers src dest =
        .error (wrap "user migration failed" "the destination users table is not empty") ∧
      runMigration src dest =
        .err (wrap "database migration failed"
          (wrap "user migration failed" "the destination users table is not empty"))) ∧
    (dest.notification_types ≠ [] →
      migrateNotificationTypes src dest =
        .error (wrap "notification type migration failed"
          "the destination notification_types table is not empty")) ∧
    (dest.notifications ≠ [] →
      migrateNotificationsT src dest =
        .err (wrap "notification migration failed"
          "the destination notifictions table is not empty")) := by
  refine ⟨?_, ?_, ?_⟩
  · intro hne
    have hlen : dest.users.length > 0 := List.length_pos.mpr hne
    have hu : migrateUsers src dest =
        .error (wrap "user migration failed" "the destination users table is not empty") := by
      simp [migrateUsers, validateDestinationUsersTable, hlen]
    exact ⟨hu, by simp [runMigration, hu]⟩
  · intro hne
    have hlen : dest.notification_types.length > 0 := List.length_pos.mpr hne
    simp [migrateNotificationTypes, validateDestinationNotificationTypesTable, hlen]
  · intro hne
    have hlen : dest.notifications.length > 0 := List.length_pos.mpr hne
    simp [migrateNotificationsT, validateDestinationNotificationsTable, hlen]

theorem c5_per_stage_emptiness_check_witness :
    migrateUsers emptySrc c5Dest1 =
      .error (wrap "user migration failed" "the destination users table is not empty") ∧
    runMigration emptySrc c5Dest1 =
      .err (wrap "database migration failed"
        (wrap "user migration failed" "the destination users table is not empty")) ∧
    migrateNotificationTypes emptySrc c5Dest =
      .error (wrap "notification type migration failed"
        "the destination notification_types table is not empty") := by
  refine ⟨?_, ?_, ?_⟩
  · exact ((c5_per_stage_emptiness_check emptySrc c5Dest1).1 (by simp [c5Dest1])).1
  · exact ((c5_per_stage_emptiness_check emptySrc c5Dest1).1 (by simp [c5Dest1])).2
  · exact (c5_per_stage_emptiness_check emptySrc c5Dest).2.1 (by simp [c5Dest])

/-! ## Claim C3: unresolved identity lookups -/

/-- C3 counterexample: the notification stage run directly against an empty
destination has empty identity dictionaries, so both lookups are unresolved —
yet the run succeeds and silently inserts the Go zero value `""` as both
foreign keys, contrary to the claim that an unresolved key is a reported
error. -/
theorem c3_counterexample :
    getNotificationTypeIDMap dest0 = [] ∧ getUserIDMap dest0 = [] ∧
    resultFKs (migrateNotificationsT exSrc dest0) = some [("", "")] :=
  ⟨rfl, rfl, rfl⟩

/-- C3 (amended): an unresolved key never fails the run; Go map indexing
yields the zero value `""`, the row is inserted with the defaulted foreign
keys, and the loop continues with the remaining rows. -/
theorem c3_unresolved_key_defaults (tm um : List (String × String))
    (r : ScannedNotification) (rs : List ScannedNotification) (dest : DestDB)
    (stmts : List (InsertStmt DestNotificationRow))
    (fields msgFields : List (String × JValue))
    (hmsg : r.message = .json (.obj fields))
    (hsub : jLookup fields "message" = some (.obj msgFields))
    (habsent1 : ∀ p ∈ tm, p.1 ≠ r.notificationType)
    (habsent2 : ∀ p ∈ um, p.1 ≠ r.username) :
    goMapGet tm r.notificationType = "" ∧
    goMapGet um r.username = "" ∧
    migrateNotificationsLoop tm um (r :: rs) dest stmts =
      migrateNotificationsLoop tm um rs
        { dest with notifications := dest.notifications ++
            [{ id := r.id, notification_type_id := "", user_id := "",
               subject := r.subject, seen := r.seen, deleted := r.deleted,
               time_created := r.timeCreated, incoming_json := r.message,
               outgoing_json :=
                 .obj (jSet fields "message" (.obj (jSet msgFields "id" (.str r.id)))) }] }
        (stmts ++
          [{ into := "notifications", cols := notificationColumns,
             rows := [{ id := r.id, notification_type_id := "", user_id := "",
                        subject := r.subject, seen := r.seen, deleted := r.deleted,
                        time_created := r.timeCreated, incoming_json := r.message,
                        outgoing_json :=
                          .obj (jSet fields "message"
                            (.obj (jSet msgFields "id" (.str r.id)))) }] }]) := by
  have h1 : goMapGet tm r.notificationType = "" := goMapGet_eq_empty_of_absent habsent1
  have h2 : goMapGet um r.username = "" := goMapGet_eq_empty_of_absent habsent2
  refine ⟨h1, h2, ?_⟩
  have hunm : unmarshalObject r.message = .ok fields := by
    rw [hmsg]; rfl
  simp only [migrateNotificationsLoop, hunm, hsub, InsertBuilder.Values,
    InsertBuilder.ToSql, List.nil_append, List.isEmpty_cons, Bool.false_eq_true, if_false,
    execInsertNotifications, h1, h2]

theorem c3_unresolved_key_defaults_witness :
    goMapGet [] c3Scanned.notificationType = "" ∧
    goMapGet [] c3Scanned.username = "" ∧
    migrateNotificationsLoop [] [] [c3Scanned] dest0 [] =
      migrateNotificationsLoop [] [] []
        { dest0 with notifications := dest0.notifications ++
            [{ id := c3Scanned.id, notification_type_id := "", user_id := "",
               subject := c3Scanned.subject, seen := c3Scanned.seen,
               deleted := c3Scanned.deleted, time_created := c3Scanned.timeCreated,
               incoming_json := c3Scanned.message,
               outgoing_json :=
                 .obj (jSet [("message", .obj [("text", .str "hi")])] "message"
                   (.obj (jSet [("text", .str "hi")] "id" (.str c3Scanned.id)))) }] }
        ([] ++
          [{ into := "notifications", cols := notificationColumns,
             rows := [{ id := c3Scanned.id, notification_type_id := "", user_id := "",
                        subject := c3Scanned.subject, seen := c3Scanned.seen,
                        deleted := c3Scanned.deleted, time_created := c3Scanned.timeCreated,
                        incoming_json := c3Scanned.message,
                        outgoing_json :=
                          .obj (jSet [("message", .obj [("text", .str "hi")])] "message"
                            (.obj (jSet [("text", .str "hi")] "id" (.str c3Scanned.id)))) }] }]) :=
  c3_unresolved_key_defaults [] [] c3Scanned [] dest0 []
    [("message", .obj [("text", .str "hi")])] [("text", .str "hi")]
    rfl rfl (by simp) (by simp)

/-! ## Claim C4: malformed payloads -/

/-- C4 counterexample: a payload that parses to an object without a
`"message"` sub-object makes the run crash with the Go type-assertion panic
instead of returning an error; so does the JSON value `null`, which Go
unmarshals into a nil map with no error before the type assertion panics; and
a payload that is not valid JSON produces a wrapped error whose text does not
mention the offending record's identity (`n-1`) — all contrary to the claim. -/
theorem c4_counterexample :
    runMigration c4Src dest0 = .panicked messageAssertionPanic ∧
    runMigration c4NullSrc dest0 = .panicked messageAssertionPanic ∧
    runMigration c4RawSrc dest0 =
      .err (wrap "database migration failed"
        (wrap "notification migration failed" "invalid character in JSON text")) :=
  ⟨rfl, rfl, rfl⟩

/-- C4 (amended): a message whose unmarshalling fails — text that is not valid
JSON, or a JSON value other than an object or `null` — aborts the run with the
parse error wrapped in the fixed stage text (which does not name the record);
a message that unmarshals without error but yields no `"message"` object field
makes the loop panic via the unchecked type assertion — in particular a JSON
`null` message, which Go unmarshals into a nil map with no error, panics. -/
theorem c4_malformed_payload (tm um : List (String × String))
    (r : ScannedNotification) (rs : List ScannedNotification) (dest : DestDB)
    (stmts : List (InsertStmt DestNotificationRow)) :
    (∀ e, unmarshalObject r.message = .error e →
      migrateNotificationsLoop tm um (r :: rs) dest stmts =
        .err (wrap "notification migration failed" e)) ∧
    (∀ fields, unmarshalObject r.message = .ok fields →
      messageFieldIsObject fields = false →
      migrateNotificationsLoop tm um (r :: rs) dest stmts =
        .panicked messageAssertionPanic) ∧
    (r.message = .json .null →
      migrateNotificationsLoop tm um (r :: rs) dest stmts =
        .panicked messageAssertionPanic) := by
  refine ⟨?_, ?_, ?_⟩
  · intro e he
    simp only [migrateNotificationsLoop, he]
  · intro fields hf hb
    simp only [migrateNotificationsLoop, hf]
    unfold messageFieldIsObject at hb
    cases h2 : jLookup fields "message" with
    | none => simp only [h2]
    | some v =>
        cases v with
        | null => simp only [h2]
        | bool b => simp only [h2]
        | num n => simp only [h2]
        | str s => simp only [h2]
        | obj msgFields => rw [h2] at hb; simp at hb
  · intro hnull
    have hok : unmarshalObject r.message = .ok [] := by rw [hnull]; rfl
    simp only [migrateNotificationsLoop, hok, jLookup]

theorem c4_malformed_payload_witness :
    migrateNotificationsLoop [] [] [c4RawScanned] dest0 [] =
      .err (wrap "notification migration failed" "invalid character in JSON text") ∧
    migrateNotificationsLoop [] [] [c4NoMsgScanned] dest0 [] =
      .panicked messageAssertionPanic ∧
    migrateNotificationsLoop [] [] [c4NullScanned] dest0 [] =
      .panicked messageAssertionPanic :=
  ⟨(c4_malformed_payload [] [] c4RawScanned [] dest0 []).1 _ rfl,
   (c4_malformed_payload [] [] c4NoMsgScanned [] dest0 []).2.1 _ rfl rfl,
   (c4_malformed_payload [] [] c4NullScanned [] dest0 []).2.2 rfl⟩

/-! ## Run-level decomposition -/

theorem scanResultRow_some_inv {tm um : List (String × String)}
    {r : ScannedNotification} {row : DestNotificationRow}
    (h : scanResultRow tm um r = some row) :
    ∃ fields msgFields,
      unmarshalObject r.message = .ok fields ∧
      jLookup fields "message" = some (.obj msgFields) ∧
      row = { id := r.id,
              notification_type_id := goMapGet tm r.notificationType,
              user_id := goMapGet um r.username,
              subject := r.subject, seen := r.seen, deleted := r.deleted,
              time_created := r.timeCreated, incoming_json := r.message,
              outgoing_json :=
                .obj (jSet fields "message" (.obj (jSet msgFields "id" (.str r.id)))) } := by
  unfold scanResultRow at h
  cases h1 : unmarshalObject r.message with
  | error e => rw [h1] at h; cases h
  | ok fields =>
      rw [h1] at h
      cases h2 : jLookup fields "message" with
      | none => simp only [h2] at h; cases h
      | some v =>
          cases v with
          | null => simp only [h2] at h; cases h
          | bool b => simp only [h2] at h; cases h
          | num n => simp only [h2] at h; cases h
          | str s => simp only [h2] at h; cases h
          | obj msgFields =>
              simp only [h2, Option.some.injEq] at h
              exact ⟨fields, msgFields, rfl, h2, h.symm⟩

theorem mem_notificationQueryRows {src : SourceDB} {r : ScannedNotification} :
    r ∈ notificationQueryRows src ↔ r ∈ joinedNotifications src :=
  (List.perm_insertionSort timeLE (joinedNotifications src)).mem_iff

theorem joinedNotifications_provenance {src : SourceDB} {r : ScannedNotification}
    (h : r ∈ joinedNotifications src) :
    ∃ n ∈ src.notifications, ∃ u ∈ src.users,
      r = { id := n.uuid, notificationType := strLower n.type, username := u.username,
            subject := n.subject, seen := n.seen, deleted := n.deleted,
            timeCreated := n.date_created, message := n.message } := by
  unfold joinedNotifications at h
  obtain ⟨n, hn, hsome⟩ := List.mem_filterMap.mp h
  cases hf : src.users.find? (fun u => u.id == n.user_id) with
  | none => rw [hf] at hsome; cases hsome
  | some u =>
      rw [hf] at hsome
      exact ⟨n, hn, u, List.mem_of_find?_eq_some hf, (Option.some.inj hsome).symm⟩

theorem runMigration_ok_decomp {src : SourceDB} {dest : DestDB} {d : DestDB}
    (h : runMigration src dest = .ok d) :
    ∃ d1 d2 stmts,
      migrateUsers src dest = .ok d1 ∧
      migrateNotificationTypes src d1 = .ok d2 ∧
      migrateNotificationsT src d2 = .ok (d, stmts) := by
  simp only [runMigration] at h
  cases h1 : migrateUsers src dest with
  | error e => simp only [h1] at h; cases h
  | ok d1 =>
      simp only [h1] at h
      cases h2 : migrateNotificationTypes src d1 with
      | error e => simp only [h2] at h; cases h
      | ok d2 =>
          simp only [h2] at h
          cases h3 : migrateNotificationsT src d2 with
          | err e => simp only [h3] at h; cases h
          | panicked m => simp only [h3] at h; cases h
          | ok p =>
              obtain ⟨d3, stmts⟩ := p
              simp only [h3] at h
              cases h
              exact ⟨d1, d2, stmts, rfl, h2, h3⟩

theorem getNotificationTypeIDMap_congr {d d' : DestDB}
    (h : d.notification_types = d'.notification_types) :
    getNotificationTypeIDMap d = getNotificationTypeIDMap d' := by
  unfold getNotificationTypeIDMap
  rw [h]

theorem getUserIDMap_congr {d d' : DestDB} (h : d.users = d'.users) :
    getUserIDMap d = getUserIDMap d' := by
  unfold getUserIDMap
  rw [h]

/-- Full characterization of a successful run: the destination started empty,
the user and type stages populated their tables with freshly-identified rows,
and the notification table is exactly the image of the sorted, joined source
rows under the loop-body transformation driven by the two identity maps read
back from the destination. -/
theorem runMigration_ok_spec {src : SourceDB} {dest : DestDB} {d : DestDB}
    (h : runMigration src dest = .ok d) :
    dest.users = [] ∧ dest.notification_types = [] ∧ dest.notifications = [] ∧
    d.users = assignUserRows dest.nextId (src.users.map (fun u => u.username)) ∧
    d.notification_types =
      assignTypeRows (dest.nextId + src.users.length)
        (sqlDistinct (src.notifications.map (fun n => strLower n.type))) ∧
    (∀ r ∈ notificationQueryRows src,
      (scanResultRow (getNotificationTypeIDMap d) (getUserIDMap d) r).isSome) ∧
    d.notifications = (notificationQueryRows src).filterMap
      (scanResultRow (getNotificationTypeIDMap d) (getUserIDMap d)) := by
  obtain ⟨d1, d2, stmts, h1, h2, h3⟩ := runMigration_ok_decomp h
  rw [migrateUsers_ok_iff] at h1
  obtain ⟨hdu, -, hd1⟩ := h1
  rw [migrateNotificationTypes_ok_iff] at h2
  obtain ⟨hd1types, -, hd2⟩ := h2
  obtain ⟨hd2n, hloop⟩ := migrateNotificationsT_ok h3
  obtain ⟨hall, hu, ht, -, hnotif, -⟩ :=
    migrateNotificationsLoop_ok _ _ _ _ _ _ _ hloop
  have hd1u : d1.users = assignUserRows dest.nextId (src.users.map (fun u => u.username)) := by
    rw [hd1, execInsertUsers_eq]
    simp [hdu]
  have hd1t : d1.notification_types = dest.notification_types := by
    rw [hd1, execInsertUsers_eq]
  have hd1n : d1.notifications = dest.notifications := by
    rw [hd1, execInsertUsers_eq]
  have hd1next : d1.nextId = dest.nextId + src.users.length := by
    rw [hd1, execInsertUsers_eq]
    simp
  have hd2u : d2.users = d1.users := by
    rw [hd2, execInsertTypes_eq]
  have hd2t : d2.notification_types =
      assignTypeRows (dest.nextId + src.users.length)
        (sqlDistinct (src.notifications.map (fun n => strLower n.type))) := by
    rw [hd2, execInsertTypes_eq, hd1types, hd1next]
    simp
  have hd2nn : d2.notifications = d1.notifications := by
    rw [hd2, execInsertTypes_eq]
  have hdt : dest.notification_types = [] := by
    rw [← hd1t]
    exact hd1types
  have hdn : dest.notifications = [] := by
    rw [← hd1n, ← hd2nn]
    exact hd2n
  have htm : getNotificationTypeIDMap d = getNotificationTypeIDMap d2 :=
    getNotificationTypeIDMap_congr ht
  have hum : getUserIDMap d = getUserIDMap d2 :=
    getUserIDMap_congr hu
  refine ⟨hdu, hdt, hdn, ?_, ?_, ?_, ?_⟩
  · rw [hu, hd2u, hd1u]
  · rw [ht, hd2t]
  · intro r hr
    rw [htm, hum]
    exact hall r hr
  · rw [hnotif, hd2n, htm, hum]
    simp

theorem scanResultRow_time {tm um : List (String × String)}
    {r : ScannedNotification} {row : DestNotificationRow}
    (h : scanResultRow tm um r = some row) : row.time_created = r.timeCreated := by
  obtain ⟨fields, msgFields, -, -, hrow⟩ := scanResultRow_some_inv h
  rw [hrow]

/-! ## Claim C1: the payload rewrite -/

/-- C1 counterexample: a migrated notification whose payload parses and has
the expected shape, but whose `"message"` sub-object already carries an `"id"`
key (value `old`): the code overwrites that value with the notification
identity, so the outgoing payload is NOT the incoming payload plus one added
field — the pre-existing binding is lost. -/
theorem c1_counterexample :
    firstNotificationRow (runMigration c1Src dest0) = some c1Row ∧
    HasExpectedShape c1Row.incoming_json ∧
    ¬ OutgoingIsIncomingPlusId c1Row.incoming_json c1Row.id c1Row.outgoing_json := by
  refine ⟨rfl,
    ⟨[("message", .obj [("id", .str "old"), ("text", .str "hi")])],
     [("id", .str "old"), ("text", .str "hi")], rfl, rfl⟩, ?_⟩
  rintro ⟨fs, ms, h1, h2, h3, -⟩
  simp only [c1Row] at h1
  injection h1 with h1a
  injection h1a with h1b
  subst h1b
  simp [jLookup] at h2
  subst h2
  simp [jLookup] at h3

/-- C1 (amended): for every migrated notification, the stored incoming payload
is the source message verbatim, and whenever the source payload is a JSON
object with a `"message"` sub-object, the outgoing payload is the incoming
payload with the sub-object's `"id"` key SET to the notification's
source-carried identity — added as a new field when absent (then the original
claim holds verbatim), overwritten when already present. -/
theorem c1_outgoing_sets_id (src : SourceDB) (dest : DestDB) (d : DestDB)
    (h : runMigration src dest = .ok d) :
    ∀ row ∈ d.notifications,
      ∃ n ∈ src.notifications,
        row.id = n.uuid ∧
        row.incoming_json = n.message ∧
        ∀ fields msgFields,
          n.message = .json (.obj fields) →
          jLookup fields "message" = some (.obj msgFields) →
          row.outgoing_json =
            .obj (jSet fields "message" (.obj (jSet msgFields "id" (.str n.uuid)))) ∧
          (jLookup msgFields "id" = none →
            OutgoingIsIncomingPlusId n.message n.uuid row.outgoing_json) := by
  obtain ⟨-, -, -, -, -, -, hnotifs⟩ := runMigration_ok_spec h
  intro row hrow
  rw [hnotifs] at hrow
  obtain ⟨r, hr, hsome⟩ := List.mem_filterMap.mp hrow
  obtain ⟨n, hn, u, humem, hreq⟩ :=
    joinedNotifications_provenance (mem_notificationQueryRows.mp hr)
  subst hreq
  obtain ⟨fields0, msgFields0, hunm, hlook, hroweq⟩ := scanResultRow_some_inv hsome
  simp only at hunm hlook hroweq
  refine ⟨n, hn, by rw [hroweq], by rw [hroweq], ?_⟩
  intro fields msgFields hmsg hsub
  rw [hmsg] at hunm
  simp only [unmarshalObject, Except.ok.injEq] at hunm
  subst hunm
  rw [hsub] at hlook
  simp only [Option.some.injEq] at hlook
  injection hlook with hlook'
  subst hlook'
  have hout : row.outgoing_json =
      .obj (jSet fields "message" (.obj (jSet msgFields "id" (.str n.uuid)))) := by
    rw [hroweq]
  refine ⟨hout, ?_⟩
  intro hid
  exact ⟨fields, msgFields, hmsg, hsub, hid, by
    rw [hout, jSet_of_lookup_none _ hid]⟩

theorem c1_outgoing_sets_id_witness :
    runMigration exSrc dest0 = .ok exDest ∧
    (∀ row ∈ exDest.notifications,
      ∃ n ∈ exSrc.notifications,
        row.id = n.uuid ∧
        row.incoming_json = n.message ∧
        ∀ fields msgFields,
          n.message = .json (.obj fields) →
          jLookup fields "message" = some (.obj msgFields) →
          row.outgoing_json =
            .obj (jSet fields "message" (.obj (jSet msgFields "id" (.str n.uuid)))) ∧
          (jLookup msgFields "id" = none →
            OutgoingIsIncomingPlusId n.message n.uuid row.outgoing_json)) :=
  ⟨rfl, c1_outgoing_sets_id exSrc dest0 exDest rfl⟩

/-! ## Claim C6: insertion order and single-row statements -/

/-- C6: on a successful notification stage, every executed insert statement
carries exactly one row, and the executed statement sequence is in
non-decreasing source creation-time order. -/
theorem c6_insertion_order (src : SourceDB) (dest : DestDB) (d : DestDB)
    (stmts : List (InsertStmt DestNotificationRow))
    (h : migrateNotificationsT src dest = .ok (d, stmts)) :
    (∀ s ∈ stmts, s.rows.length = 1) ∧
    List.Pairwise
      (fun s1 s2 => ∀ r1 ∈ s1.rows, ∀ r2 ∈ s2.rows, r1.time_created ≤ r2.time_created)
      stmts := by
  obtain ⟨-, hloop⟩ := migrateNotificationsT_ok h
  obtain ⟨-, -, -, -, -, hstmts⟩ := migrateNotificationsLoop_ok _ _ _ _ _ _ _ hloop
  rw [hstmts]
  simp only [List.nil_append]
  constructor
  · intro s hs
    obtain ⟨row, -, hrow⟩ := List.mem_map.mp hs
    rw [← hrow]
    rfl
  · rw [List.pairwise_map, List.pairwise_filterMap]
    have hsorted : List.Pairwise timeLE (notificationQueryRows src) :=
      List.sorted_insertionSort timeLE (joinedNotifications src)
    refine hsorted.imp ?_
    intro a b hab r1 h1 r2 h2 x hx y hy
    simp only [Option.mem_def] at h1 h2
    simp only [List.mem_singleton] at hx hy
    subst hx
    subst hy
    rw [scanResultRow_time h1, scanResultRow_time h2]
    exact hab

theorem c6_insertion_order_witness :
    migrateNotificationsT c6Src dest0 = .ok (c6Dest, c6Trace) ∧
    (∀ s ∈ c6Trace, s.rows.length = 1) ∧
    List.Pairwise
      (fun s1 s2 => ∀ r1 ∈ s1.rows, ∀ r2 ∈ s2.rows, r1.time_created ≤ r2.time_created)
      c6Trace :=
  ⟨by rfl, c6_insertion_order c6Src dest0 c6Dest c6Trace (by rfl)⟩

/-! ## Claim C7: distinct lower-cased type names -/

/-- C7: on success, the notification-type stage inserts exactly the distinct
lower-cased type strings of the source notifications: the inserted names are
the distinct lower-cased strings, no name repeats, and the row count equals
the number of distinct lower-cased source type strings. -/
theorem c7_types_distinct_lowercased (src : SourceDB) (dest : DestDB) (d : DestDB)
    (h : migrateNotificationTypes src dest = .ok d) :
    d.notification_types.map (fun t => t.name) =
      sqlDistinct (src.notifications.map (fun n => strLower n.type)) ∧
    (d.notification_types.map (fun t => t.name)).Nodup ∧
    d.notification_types.length =
      (src.notifications.map (fun n => strLower n.type)).toFinset.card := by
  rw [migrateNotificationTypes_ok_iff] at h
  obtain ⟨hdt, -, hd⟩ := h
  have hnames : d.notification_types.map (fun t => t.name) =
      sqlDistinct (src.notifications.map (fun n => strLower n.type)) := by
    rw [hd, execInsertTypes_eq]
    simp [hdt, assignTypeRows_map_name]
  refine ⟨hnames, ?_, ?_⟩
  · rw [hnames]
    exact nodup_sqlDistinct _
  · have hlen : d.notification_types.length =
        (d.notification_types.map (fun t => t.name)).length :=
      (List.length_map _ _).symm
    rw [hlen, hnames, length_sqlDistinct]

theorem c7_types_distinct_lowercased_witness :
    migrateNotificationTypes c7Src dest0 = .ok c7Dest ∧
    c7Dest.notification_types.map (fun t => t.name) =
      sqlDistinct (c7Src.notifications.map (fun n => strLower n.type)) ∧
    (c7Dest.notification_types.map (fun t => t.name)).Nodup ∧
    c7Dest.notification_types.length =
      (c7Src.notifications.map (fun n => strLower n.type)).toFinset.card :=
  ⟨by rfl, c7_types_distinct_lowercased c7Src dest0 c7Dest (by rfl)⟩

/-! ## Claim C8: no dangling foreign keys -/

/-- C8: on a successful run, every inserted notification's type and user
foreign keys equal the destination-assigned identity of a row that the
preceding notification-type stage and user stage inserted into the
destination (which started empty). -/
theorem c8_no_dangling_references (src : SourceDB) (dest : DestDB) (d : DestDB)
    (h : runMigration src dest = .ok d) :
    dest.users = [] ∧ dest.notification_types = [] ∧
    ∀ row ∈ d.notifications,
      (∃ t ∈ d.notification_types, row.notification_type_id = t.id) ∧
      (∃ u ∈ d.users, row.user_id = u.id) := by
  obtain ⟨hdu, hdt, -, husers, htypes, -, hnotifs⟩ := runMigration_ok_spec h
  refine ⟨hdu, hdt, ?_⟩
  intro row hrow
  rw [hnotifs] at hrow
  obtain ⟨r, hr, hsome⟩ := List.mem_filterMap.mp hrow
  obtain ⟨n, hn, u, humem, hreq⟩ :=
    joinedNotifications_provenance (mem_notificationQueryRows.mp hr)
  subst hreq
  obtain ⟨fields0, msgFields0, -, -, hroweq⟩ := scanResultRow_some_inv hsome
  simp only at hroweq
  constructor
  · have hkey : strLower n.type ∈ d.notification_types.map (fun t => t.name) := by
      rw [htypes, assignTypeRows_map_name, mem_sqlDistinct]
      exact List.mem_map.mpr ⟨n, hn, rfl⟩
    obtain ⟨trow, htmem, -, hget⟩ :=
      goMapGet_foldl_of_mem (fun t => t.name) (fun t => t.id)
        d.notification_types (strLower n.type) hkey
    refine ⟨trow, htmem, ?_⟩
    rw [hroweq]
    exact hget
  · have hkey : u.username ∈ d.users.map (fun w => w.username) := by
      rw [husers, assignUserRows_map_username]
      exact List.mem_map.mpr ⟨u, humem, rfl⟩
    obtain ⟨urow, humem2, -, hget⟩ :=
      goMapGet_foldl_of_mem (fun w => w.username) (fun w => w.id)
        d.users u.username hkey
    refine ⟨urow, humem2, ?_⟩
    rw [hroweq]
    exact hget

theorem c8_no_dangling_references_witness :
    runMigration c10Src dest0 = .ok c10Dest ∧
    dest0.users = [] ∧ dest0.notification_types = [] ∧
    (∀ row ∈ c10Dest.notifications,
      (∃ t ∈ c10Dest.notification_types, row.notification_type_id = t.id) ∧
      (∃ u ∈ c10Dest.users, row.user_id = u.id)) :=
  ⟨by rfl, c8_no_dangling_references c10Src dest0 c10Dest (by rfl)⟩

/-! ## Claim C9: stage sequencing and error wrapping -/

/-- C9: the run executes user, type, notification migrators in that strict
order; the first stage to fail determines the run's error, which the
orchestrator wraps once more, and each stage's own error text identifies the
stage; when all three succeed the run succeeds with the notification stage's
final state. -/
theorem c9_stage_sequencing (src : SourceDB) (dest : DestDB) :
    (∀ e, migrateUsers src dest = .error e →
      runMigration src dest = .err (wrap "database migration failed" e) ∧
      ∃ c, e = wrap "user migration failed" c) ∧
    (∀ d1 e, migrateUsers src dest = .ok d1 →
      migrateNotificationTypes src d1 = .error e →
      runMigration src dest = .err (wrap "database migration failed" e) ∧
      ∃ c, e = wrap "notification type migration failed" c) ∧
    (∀ d1 d2 e, migrateUsers src dest = .ok d1 →
      migrateNotificationTypes src d1 = .ok d2 →
      migrateNotificationsT src d2 = .err e →
      runMigration src dest = .err (wrap "database migration failed" e) ∧
      ∃ c, e = wrap "notification migration failed" c) ∧
    (∀ d1 d2 d3 stmts, migrateUsers src dest = .ok d1 →
      migrateNotificationTypes src d1 = .ok d2 →
      migrateNotificationsT src d2 = .ok (d3, stmts) →
      runMigration src dest = .ok d3) := by
  refine ⟨?_, ?_, ?_, ?_⟩
  · intro e h1
    exact ⟨by simp only [runMigration, h1], migrateUsers_error_shape h1⟩
  · intro d1 e h1 h2
    exact ⟨by simp only [runMigration, h1, h2], migrateNotificationTypes_error_shape h2⟩
  · intro d1 d2 e h1 h2 h3
    exact ⟨by simp only [runMigration, h1, h2, h3], migrateNotificationsT_err_shape h3⟩
  · intro d1 d2 d3 stmts h1 h2 h3
    simp only [runMigration, h1, h2, h3]

theorem c9_stage_sequencing_witness :
    (runMigration emptySrc dest0 =
      .err (wrap "database migration failed"
        (wrap "user migration failed" squirrelEmptyInsertError)) ∧
     ∃ c, wrap "user migration failed" squirrelEmptyInsertError =
       wrap "user migration failed" c) ∧
    runMigration exSrc dest0 = .ok exDest :=
  ⟨(c9_stage_sequencing emptySrc dest0).1 _ (by rfl),
   (c9_stage_sequencing exSrc dest0).2.2.2 exDest1 exDest2 exDest exTrace
     (by rfl) (by rfl) (by rfl)⟩

/-! ## Claim C10: orphan notifications are silently dropped -/

/-- C10: a successful run inserts exactly one destination notification per
source notification that has a matching source user — notifications whose
`user_id` matches no source user are dropped by the inner join with no
error. -/
theorem c10_orphan_notifications_dropped (src : SourceDB) (dest : DestDB) (d : DestDB)
    (h : runMigration src dest = .ok d) :
    d.notifications.length =
      (src.notifications.filter
        (fun n => (src.users.find? (fun u => u.id == n.user_id)).isSome)).length := by
  obtain ⟨-, -, -, -, -, hall, hnotifs⟩ := runMigration_ok_spec h
  rw [hnotifs, length_filterMap_of_all_isSome hall]
  have hlen : (notificationQueryRows src).length = (joinedNotifications src).length :=
    (List.perm_insertionSort timeLE (joinedNotifications src)).length_eq
  rw [hlen]
  unfold joinedNotifications
  rw [length_filterMap_eq_length_filter]
  apply congrArg List.length
  apply List.filter_congr
  intro n hn
  cases hf : src.users.find? (fun u => u.id == n.user_id) with
  | none => simp [hf]
  | some u => simp [hf]

theorem c10_orphan_notifications_dropped_witness :
    runMigration c10Src dest0 = .ok c10Dest ∧
    c10Dest.notifications.length =
      (c10Src.notifications.filter
        (fun n => (c10Src.users.find? (fun u => u.id == n.user_id)).isSome)).length :=
  ⟨by rfl, c10_orphan_notifications_dropped c10Src dest0 c10Dest (by rfl)⟩

end NotificationMigrator
